import Mathlib

/-!
Verification development for the ship electrical-fault monitor
(`src/zhinengti.py`): a shallow embedding of the classifier, the tool
registry, the conversation-history window, and the dialogue orchestrator,
together with theorems about the specified behaviour.

Samples are embedded as exact rationals (`ℚ`); the numpy reductions
`np.mean` / `np.std` / `np.max` are embedded as exact arithmetic on lists.
`np.max` of an empty array raises `ValueError`, which the embedding
represents by an `Option` result.
-/

/-- `np.mean(v)`: arithmetic mean.  (For the empty list this is `0/0 = 0`
in `ℚ`; the embedded code only evaluates it on nonempty data because
`np.max` has already raised on empty input.) -/
def npMean (v : List ℚ) : ℚ := v.sum / (v.length : ℚ)

/-- `data - np.mean(data)`, elementwise mean-centering. -/
def centered (data : List ℚ) : List ℚ := data.map (fun x => x - npMean data)

/-- The square of `np.std(v)` (population variance, `ddof = 0`):
mean of squared deviations from the mean.  `np.std v = Real.sqrt (npVar v)`. -/
def npVar (v : List ℚ) : ℚ := npMean (v.map (fun x => (x - npMean v) ^ 2))

/-- `np.max(v)`: maximum of the elements; `none` models the `ValueError`
numpy raises on a zero-size array. -/
def npMax : List ℚ → Option ℚ
  | [] => none
  | x :: xs => some (xs.foldl max x)

/-- `dl_model_inference(data, fault_scenario)` from `src/zhinengti.py`
(lines 103–117).  Returns `(status text, confidence, fault type)`.
`max_current = np.max(np.abs(data))` is computed first and never used,
but it raises on an empty window — modelled by the `none` branch.
`high_freq_energy = np.std(data - np.mean(data))`; the guard
`high_freq_energy > 0.4` is stated on squares: `npVar (centered data) > (2/5)^2`,
which is equivalent because `np.std` is the nonnegative square root of `npVar`. -/
def dl_model_inference (data : List ℚ) (fault_scenario : String) :
    Option (String × ℚ × String) :=
  match npMax (data.map (fun x => |x|)) with
  | none => none
  | some _max_current =>
    if fault_scenario = "severe_arc" then
      some ("二级预警 (故障确认)", 97.5, "severe_arc")
    else if fault_scenario = "early_arc" then
      if (2/5 : ℚ) ^ 2 < npVar (centered data) then
        some ("一级预警 (预测风险)", 85.0, "early_arc")
      else
        some ("运行正常 (安全)", 5.0, "normal")
    else if fault_scenario = "motor_start" then
      some ("干扰信号 (电机启动)", 10.0, "motor_start")
    else
      some ("运行正常 (安全)", 2.0, "normal")

/-- The four status codes of the specification's data model. -/
inductive StatusCode where
  | NORMAL
  | INTERFERENCE
  | WARNING_L1
  | WARNING_L2
deriving DecidableEq, Repr

/-- Modelled from the spec: the scenario-agnostic **amplitude-threshold
policy** ("if `max(|sample|) > 14` → `WARNING_L2`, confidence 97.5; else if
`max(|sample|) > 12` → `WARNING_L1`, confidence 75.0; else → `NORMAL`,
confidence 5.0").  This policy variant lives only in the repository's
near-duplicate variant files, not in `src/zhinengti.py`, whose
`dl_model_inference` computes `max_current` but never branches on it.
The scenario tag is accepted and ignored, as the spec requires. -/
def amplitude_policy (data : List ℚ) (_scenario : String) :
    Option (StatusCode × ℚ) :=
  match npMax (data.map (fun x => |x|)) with
  | none => none
  | some m =>
    if 14 < m then some (StatusCode.WARNING_L2, 97.5)
    else if 12 < m then some (StatusCode.WARNING_L1, 75.0)
    else some (StatusCode.NORMAL, 5.0)

example : dl_model_inference [3, -3] "severe_arc"
    = some ("二级预警 (故障确认)", 97.5, "severe_arc") := by
  norm_num [dl_model_inference, npMax]

example : dl_model_inference [] "severe_arc" = none := by decide

example : dl_model_inference [1, -1] "early_arc"
    = some ("一级预警 (预测风险)", 85.0, "early_arc") := by
  norm_num [dl_model_inference, npMax, npVar, npMean, centered]
  all_goals decide

example : dl_model_inference [1, 1] "early_arc"
    = some ("运行正常 (安全)", 5.0, "normal") := by
  norm_num [dl_model_inference, npMax, npVar, npMean, centered]
  all_goals decide

example : amplitude_policy [15] "normal" = some (StatusCode.WARNING_L2, 97.5) := by
  norm_num [amplitude_policy, npMax]

example : amplitude_policy [13] "whatever" = some (StatusCode.WARNING_L1, 75.0) := by
  norm_num [amplitude_policy, npMax]

/-! ## Tool registry (`src/zhinengti.py` lines 28–74) -/

/-- Auxiliary for Python's substring test `needle in hay` on character lists. -/
def containsSub : List Char → List Char → Bool
  | needle, [] => needle.isEmpty
  | needle, c :: rest => needle.isPrefixOf (c :: rest) || containsSub needle rest

/-- Python's `needle in hay` substring containment on strings. -/
def strContains (needle hay : String) : Bool :=
  containsSub needle.data hay.data

/-- The dict built by `generate_diagnostic_report` (the Python function
returns `json.dumps` of this record; the serialization is not modelled). -/
structure ReportData where
  report_id : String
  timestamp : String
  fault_severity : String
  fault_type : String
  dl_confidence : String
  root_cause : String
  maintenance_advice : String
  risk_level : String
deriving DecidableEq, Repr

/-- `generate_diagnostic_report(fault_id, severity, fault_type)`
(lines 28–41).  `datetime.now()` is passed in explicitly as `timestamp`. -/
def generate_diagnostic_report (fault_id severity fault_type timestamp : String) :
    ReportData :=
  { report_id := "RPT-" ++ fault_id
    timestamp := timestamp
    fault_severity := severity
    fault_type := fault_type
    dl_confidence := "97.5%"
    root_cause := "高振动区域电缆固定件老化松动"
    maintenance_advice := "立即进行预防性检查，紧固连接件"
    risk_level := if strContains "二级" severity then "高" else "中" }

/-- The dict built by `check_system_stability` (lines 43–54). -/
structure StabilityData where
  edge_compute_load : String
  inference_latency : String
  communication_latency : String
  model_accuracy : String
  system_status : String
  last_maintenance : String
  next_scheduled : String
deriving DecidableEq, Repr

/-- `check_system_stability()` — a constant record. -/
def check_system_stability : StabilityData :=
  { edge_compute_load := "38%"
    inference_latency := "15ms"
    communication_latency := "45ms"
    model_accuracy := "97.5%"
    system_status := "稳定"
    last_maintenance := "2025-01-15"
    next_scheduled := "2025-04-15" }

/-- The dict built by `generate_maintenance_order` (lines 56–68). -/
structure OrderData where
  order_id : String
  circuit : String
  maintenance_type : String
  priority : String
  required_tools : String
  estimated_duration : String
  safety_requirements : String
  assigned_technician : String
deriving DecidableEq, Repr

/-- `generate_maintenance_order(circuit_id, fault_severity, maintenance_type)`.
`datetime.now().strftime('%Y%m%d%H%M')` is passed in explicitly as `now`. -/
def generate_maintenance_order (circuit_id fault_severity maintenance_type now : String) :
    OrderData :=
  { order_id := "MO-" ++ now
    circuit := circuit_id
    maintenance_type := maintenance_type
    priority := if strContains "二级" fault_severity then "紧急" else "高"
    required_tools := "红外热像仪,力矩扳手,绝缘测试仪"
    estimated_duration := "2小时"
    safety_requirements := "断电操作，穿戴PPE"
    assigned_technician := "待分配" }

/-- The keyword arguments a gateway tool call can carry (`function_call.args`,
spread into the handler with `**tool_args`). -/
structure ToolArgs where
  fault_id : String
  severity : String
  fault_type : String
  circuit_id : String
  fault_severity : String
  maintenance_type : String
deriving DecidableEq, Repr

/-- A tool-call request emitted by the gateway (`function_call`). -/
structure FunctionCall where
  name : String
  args : ToolArgs
deriving DecidableEq, Repr

/-- A structured tool payload (the Python tools return it JSON-serialized). -/
inductive ToolResult where
  | report (r : ReportData)
  | stability (s : StabilityData)
  | order (o : OrderData)
deriving DecidableEq, Repr

/-- `AVAILABLE_TOOLS` (lines 70–74): name-indexed registry of the three
tool handlers, embedded as an association list mirroring the Python dict.
Each handler receives the call's arguments and the current timestamp. -/
def AVAILABLE_TOOLS : List (String × (ToolArgs → String → ToolResult)) :=
  [("generate_diagnostic_report", fun a now =>
      ToolResult.report (generate_diagnostic_report a.fault_id a.severity a.fault_type now)),
   ("check_system_stability", fun _ _ =>
      ToolResult.stability check_system_stability),
   ("generate_maintenance_order", fun a now =>
      ToolResult.order (generate_maintenance_order a.circuit_id a.fault_severity a.maintenance_type now))]

/-! ## Conversation history (`create_conversation_history`, lines 132–141) -/

/-- A chat message in `st.session_state.messages`: `{"role": ..., "content": ...}`. -/
structure Msg where
  role : String
  content : String
deriving DecidableEq, Repr

/-- How one stored message is rendered into a history part
(`用户: ...` for the user role, `助手: ...` otherwise). -/
def renderMsg (m : Msg) : String :=
  if m.role = "user" then "用户: " ++ m.content else "助手: " ++ m.content

/-- Python's `xs[-n:]` (last `n` elements; for `n = 0` the slice `xs[0:]`
is the whole list). -/
def pySliceLast (n : Nat) (xs : List Msg) : List Msg :=
  if n = 0 then xs else xs.drop (xs.length - n)

/-- `create_conversation_history(messages, max_history=6)`:
renders the last `max_history * 2` messages, in stored order. -/
def create_conversation_history (messages : List Msg) (max_history : Nat) :
    List String :=
  (pySliceLast (max_history * 2) messages).map renderMsg

/-! ## Dialogue orchestrator (`gemini_agent_response`, lines 143–259) -/

/-- The `system_status` dict passed into `gemini_agent_response`. -/
structure SystemStatus where
  detection_status : String
  confidence : ℚ
  fault_type : String
  circuit_id : String
  timestamp : String
deriving DecidableEq, Repr

/-- The `system_instruction` f-string (lines 169–191); only the
`current_status` fields of `system_context` are interpolated into it.
The float rendering of `confidence` is abstracted by `toString`. -/
def system_instruction (s : SystemStatus) : String :=
  "\n你是一个专业的船舶电气安全智能专家，具有丰富的船舶电力系统故障诊断经验。你的名字是\"海安\"，性格专业、细心且善于沟通。\n\n当前系统状态：\n- 监测回路："
    ++ s.circuit_id
    ++ "\n- 检测状态：" ++ s.detection_status
    ++ "\n- 置信度：" ++ toString s.confidence
    ++ "%\n- 故障类型：" ++ s.fault_type
    ++ "\n\n请基于以上状态信息，以自然、专业且友好的方式与用户对话。注意：\n1. 根据检测状态调整语气：正常时轻松，预警时关切，故障时紧急但不慌乱\n2. 引用相关知识库内容时自然融入对话，不要生硬地列出条款\n3. 使用工具时，要解释为什么使用这个工具以及结果的意义\n4. 对于技术问题，既要专业准确又要通俗易懂\n5. 保持对话的连贯性和人性化，适当使用表情符号增强表达\n\n可用工具：\n- generate_diagnostic_report: 生成详细诊断报告\n- check_system_stability: 检查系统运行状态  \n- generate_maintenance_order: 创建维护工单\n\n请根据用户问题的性质，智能决定是否需要调用工具，并在回复中自然体现工具调用结果。\n"

/-- The `contents` list for the first model call (lines 194–205):
system instruction, then the bounded history window, then the user query. -/
def mkContents (status : SystemStatus) (conversation_history : List Msg)
    (user_query : String) : List String :=
  system_instruction status
    :: create_conversation_history conversation_history 6
    ++ ["用户: " ++ user_query]

/-- What the first `generate_content` call yields on success: possibly-empty
tool-call requests (`response.function_calls`) and the plain text
(`response.text`). -/
structure GatewayResp where
  function_calls : List FunctionCall
  text : String

/-- The Model Gateway collaborator (the Gemini client), as consumed by the
orchestrator.  `call1` answers the initial `generate_content` on the
assembled contents; `call2` answers the follow-up `generate_content` that is
given the user query, the tool call, and the tool's result (lines 238–247).
`Except.error e` models the client raising an exception with message `e`. -/
structure Gateway where
  call1 : List String → Except String GatewayResp
  call2 : String → FunctionCall → ToolResult → Except String String

/-- The `for function_call in response.function_calls:` loop
(lines 229–250), with the gateway invocation count threaded through.
On a registry hit the handler runs and a follow-up model call produces the
candidate final response; on a miss the candidate final response becomes the
"could not fulfill" sentinel.  Each iteration overwrites `final_response`. -/
def runToolCalls (gw : Gateway) (user_query now : String) :
    List FunctionCall → String → Nat → Except String String × Nat
  | [], final_response, n => (Except.ok final_response, n)
  | c :: rest, _final_response, n =>
    match AVAILABLE_TOOLS.lookup c.name with
    | some handler =>
      match gw.call2 user_query c (handler c.args now) with
      | Except.ok text => runToolCalls gw user_query now rest text (n + 1)
      | Except.error e => (Except.error e, n + 1)
    | none =>
      runToolCalls gw user_query now rest
        "抱歉，我暂时无法处理这个请求。请尝试其他问题。" n

/-- The `try:` block of `gemini_agent_response` (lines 193–256), paired with
the number of gateway invocations made.  An empty `function_calls` list is
falsy in Python, so the original `response.text` is the final answer. -/
def agentCoreRun (gw : Gateway) (user_query : String) (status : SystemStatus)
    (conversation_history : List Msg) (now : String) :
    Except String String × Nat :=
  match gw.call1 (mkContents status conversation_history user_query) with
  | Except.error e => (Except.error e, 1)
  | Except.ok response =>
    if response.function_calls = [] then (Except.ok response.text, 1)
    else runToolCalls gw user_query now response.function_calls "" 1

/-- The `except Exception as e:` reply (line 259). -/
def errorReply (e : String) : String :=
  "抱歉，我在处理您的请求时遇到了问题。请稍后重试。错误信息: " ++ e

/-- `gemini_agent_response(user_query, system_status, conversation_history)`:
the try-block result, with any raised exception turned into `errorReply`.
The second component counts the gateway invocations that were made. -/
def gemini_agent_response (gw : Gateway) (user_query : String)
    (system_status : SystemStatus) (conversation_history : List Msg)
    (now : String) : String × Nat :=
  match agentCoreRun gw user_query system_status conversation_history now with
  | (Except.ok t, n) => (t, n)
  | (Except.error e, n) => (errorReply e, n)

/-- The chat-input flow of `main` (lines 428–450): append the user turn to
`st.session_state.messages`, run the agent on the *updated* store, then
append the assistant turn.  Returns the final store and the answer. -/
def handleQuery (gw : Gateway) (system_status : SystemStatus)
    (store : List Msg) (prompt now : String) : List Msg × String :=
  let store1 := store ++ [⟨"user", prompt⟩]
  let response := (gemini_agent_response gw prompt system_status store1 now).1
  (store1 ++ [⟨"assistant", response⟩], response)

/-! ## Concrete inputs used by witnesses and counterexamples -/

/-- A fixed argument record for concrete tool calls. -/
def args0 : ToolArgs :=
  { fault_id := "F-001", severity := "二级预警 (故障确认)", fault_type := "severe_arc"
    circuit_id := "03号舱回路", fault_severity := "二级预警 (故障确认)"
    maintenance_type := "紧固检查" }

/-- A fixed system status for concrete orchestrator runs. -/
def status0 : SystemStatus :=
  { detection_status := "运行正常 (安全)", confidence := 2.0, fault_type := "normal"
    circuit_id := "03号舱回路", timestamp := "12:00:00" }

/-- An eight-message store (four user/assistant exchanges). -/
def msgs8 : List Msg :=
  [⟨"user", "q1"⟩, ⟨"assistant", "a1"⟩, ⟨"user", "q2"⟩, ⟨"assistant", "a2"⟩,
   ⟨"user", "q3"⟩, ⟨"assistant", "a3"⟩, ⟨"user", "q4"⟩, ⟨"assistant", "a4"⟩]

/-- A gateway whose first model call raises. -/
def gwRaise1 : Gateway :=
  { call1 := fun _ => Except.error "network down"
    call2 := fun _ _ _ => Except.ok "unused" }

/-- A gateway that requests one registered tool call and then raises at the
follow-up model call. -/
def gwRaise2 : Gateway :=
  { call1 := fun _ => Except.ok ⟨[⟨"check_system_stability", args0⟩], "t"⟩
    call2 := fun _ _ _ => Except.error "timeout" }

/-- A gateway answering plain text with no tool calls. -/
def gwPlain : Gateway :=
  { call1 := fun _ => Except.ok ⟨[], "一切正常"⟩
    call2 := fun _ _ _ => Except.ok "unused" }

/-- A deterministic follow-up answer used by multi-tool-call witnesses. -/
def answerOf (c : FunctionCall) (_r : ToolResult) : String :=
  "ans:" ++ c.name

/-- A gateway that requests two registered tool calls and answers every
follow-up call deterministically via `answerOf`. -/
def gwTwoCalls : Gateway :=
  { call1 := fun _ =>
      Except.ok ⟨[⟨"generate_diagnostic_report", args0⟩,
                  ⟨"check_system_stability", args0⟩], "t"⟩
    call2 := fun _ c r => Except.ok (answerOf c r) }

/-! ## Helper lemmas -/

/-- `np.std v > 0.4` (with `np.std v = √(npVar v)`) is equivalent to the
squared comparison used in the embedded guard. -/
theorem std_gt_iff (q : ℚ) :
    (0.4 : ℝ) < Real.sqrt (q : ℝ) ↔ (2/5 : ℚ) ^ 2 < q := by
  rw [Real.lt_sqrt (by norm_num : (0:ℝ) ≤ 0.4)]
  rw [show ((0.4 : ℝ)) ^ 2 = (((2/5 : ℚ) ^ 2 : ℚ) : ℝ) by norm_num]
  exact_mod_cast Iff.rfl

theorem errorReply_ne (e : String) : errorReply e ≠ "" := by
  intro h
  have h2 : ("抱歉，我在处理您的请求时遇到了问题。请稍后重试。错误信息: " ++ e).length
      = ("" : String).length := by rw [← h]; rfl
  rw [String.length_append] at h2
  have h3 : ("" : String).length = 0 := rfl
  have h4 : ("抱歉，我在处理您的请求时遇到了问题。请稍后重试。错误信息: " : String).length ≠ 0 := by
    decide
  omega

theorem dl_severe_cons (a : ℚ) (l : List ℚ) :
    dl_model_inference (a :: l) "severe_arc"
      = some ("二级预警 (故障确认)", 97.5, "severe_arc") := rfl

theorem dl_motor_cons (a : ℚ) (l : List ℚ) :
    dl_model_inference (a :: l) "motor_start"
      = some ("干扰信号 (电机启动)", 10.0, "motor_start") := rfl

theorem dl_normal_cons (a : ℚ) (l : List ℚ) :
    dl_model_inference (a :: l) "normal"
      = some ("运行正常 (安全)", 2.0, "normal") := rfl

theorem dl_early_cons (a : ℚ) (l : List ℚ) :
    dl_model_inference (a :: l) "early_arc"
      = if (2/5 : ℚ) ^ 2 < npVar (centered (a :: l)) then
          some ("一级预警 (预测风险)", 85.0, "early_arc")
        else
          some ("运行正常 (安全)", 5.0, "normal") := rfl

/-! ## Claim theorems -/

/-- C1: Amplitude-threshold policy.  For every telemetry window whose
maximum absolute sample is `m`: if `m > 14` the amplitude policy yields
`WARNING_L2` with confidence 97.5, else if `m > 12` it yields `WARNING_L1`
with confidence 75.0, else `NORMAL` with confidence 5.0; and the result —
in particular the `m > 14` case — is independent of the scenario tag. -/
theorem amplitude_policy_spec (data : List ℚ) (s : String) (m : ℚ)
    (h : npMax (data.map (fun x => |x|)) = some m) :
    (amplitude_policy data s = some (StatusCode.WARNING_L2, 97.5) ↔ 14 < m) ∧
    (amplitude_policy data s = some (StatusCode.WARNING_L1, 75.0) ↔
      (¬ 14 < m ∧ 12 < m)) ∧
    (amplitude_policy data s = some (StatusCode.NORMAL, 5.0) ↔
      (¬ 14 < m ∧ ¬ 12 < m)) ∧
    (∀ s', amplitude_policy data s = amplitude_policy data s') := by
  unfold amplitude_policy
  rw [h]
  refine ⟨?_, ?_, ?_, fun s' => rfl⟩ <;>
    · by_cases h14 : (14 : ℚ) < m <;> by_cases h12 : (12 : ℚ) < m <;>
        simp [h14, h12]

/-- Witness for C1 at the window `[15]`: the policy yields `WARNING_L2`
with confidence 97.5 under the `early_arc` scenario tag. -/
theorem amplitude_policy_spec_witness :
    amplitude_policy [15] "early_arc" = some (StatusCode.WARNING_L2, 97.5) := by
  have h : npMax (([15] : List ℚ).map (fun x => |x|)) = some 15 := by
    norm_num [npMax]
  exact (amplitude_policy_spec [15] "early_arc" 15 h).1.mpr (by norm_num)

/-- C3 (counterexample): on the empty window, `dl_model_inference` does not
yield `WARNING_L2` for `severe_arc` — it hits the `np.max` `ValueError`
(modelled by `none`), falsifying "regardless of window contents". -/
theorem dl_empty_severe_arc_raises :
    dl_model_inference [] "severe_arc" = none ∧
    dl_model_inference [] "severe_arc"
      ≠ some ("二级预警 (故障确认)", 97.5, "severe_arc") := by
  refine ⟨rfl, ?_⟩
  intro h
  exact Option.noConfusion h

/-- C3 (amended to nonempty windows): the scenario-aware policy of
`dl_model_inference`.  `severe_arc` always yields `WARNING_L2` at
confidence 97.5; `early_arc` yields `WARNING_L1` at confidence 85.0 iff the
standard deviation of the mean-centered window exceeds 0.4, and `NORMAL` at
confidence 5.0 otherwise; `motor_start` yields `INTERFERENCE` at 10.0;
`normal` yields `NORMAL` at 2.0; and the fault type equals the scenario tag
when the resulting status is not normal, else `"normal"`. -/
theorem dl_model_inference_policy (data : List ℚ) (hne : data ≠ []) :
    dl_model_inference data "severe_arc"
      = some ("二级预警 (故障确认)", 97.5, "severe_arc") ∧
    (dl_model_inference data "early_arc"
        = some ("一级预警 (预测风险)", 85.0, "early_arc")
      ↔ (0.4 : ℝ) < Real.sqrt ((npVar (centered data) : ℚ) : ℝ)) ∧
    (dl_model_inference data "early_arc"
        = some ("运行正常 (安全)", 5.0, "normal")
      ↔ ¬ (0.4 : ℝ) < Real.sqrt ((npVar (centered data) : ℚ) : ℝ)) ∧
    dl_model_inference data "motor_start"
      = some ("干扰信号 (电机启动)", 10.0, "motor_start") ∧
    dl_model_inference data "normal"
      = some ("运行正常 (安全)", 2.0, "normal") ∧
    (∀ s st cf ft, s ∈ ["normal", "early_arc", "severe_arc", "motor_start"] →
      dl_model_inference data s = some (st, cf, ft) →
      (st ≠ "运行正常 (安全)" → ft = s) ∧
      (st = "运行正常 (安全)" → ft = "normal")) := by
  obtain ⟨a, l, rfl⟩ : ∃ a l, data = a :: l := by
    cases data with
    | nil => exact absurd rfl hne
    | cons a l => exact ⟨a, l, rfl⟩
  have hiff := std_gt_iff (npVar (centered (a :: l)))
  have h1 := dl_severe_cons a l
  have h4 := dl_motor_cons a l
  have h5 := dl_normal_cons a l
  have h2 : dl_model_inference (a :: l) "early_arc"
      = some ("一级预警 (预测风险)", 85.0, "early_arc")
      ↔ (0.4 : ℝ) < Real.sqrt ((npVar (centered (a :: l)) : ℚ) : ℝ) := by
    rw [dl_early_cons a l, hiff]
    by_cases hv : (2/5 : ℚ) ^ 2 < npVar (centered (a :: l))
    · simp [hv]
    · simp only [if_neg hv, hv, iff_false]
      intro hcontra
      have := (Option.some.injEq _ _).mp hcontra
      exact absurd (congrArg Prod.fst this) (by decide)
  have h3 : dl_model_inference (a :: l) "early_arc"
      = some ("运行正常 (安全)", 5.0, "normal")
      ↔ ¬ (0.4 : ℝ) < Real.sqrt ((npVar (centered (a :: l)) : ℚ) : ℝ) := by
    rw [dl_early_cons a l, hiff]
    by_cases hv : (2/5 : ℚ) ^ 2 < npVar (centered (a :: l))
    · simp only [if_pos hv, hv, not_true, iff_false]
      intro hcontra
      have := (Option.some.injEq _ _).mp hcontra
      exact absurd (congrArg Prod.fst this) (by decide)
    · simp [hv]
  refine ⟨h1, h2, h3, h4, h5, ?_⟩
  intro s st cf ft hs heq
  simp only [List.mem_cons, List.mem_singleton] at hs
  rcases hs with rfl | rfl | rfl | rfl | hfalse
  · rw [h5] at heq
    have := (Option.some.injEq _ _).mp heq
    refine ⟨fun hst => absurd (congrArg Prod.fst this).symm hst, fun _ => ?_⟩
    exact (congrArg (fun p => p.2.2) this).symm
  · by_cases hv : (2/5 : ℚ) ^ 2 < npVar (centered (a :: l))
    · rw [dl_early_cons a l, if_pos hv] at heq
      have := (Option.some.injEq _ _).mp heq
      refine ⟨fun _ => (congrArg (fun p => p.2.2) this).symm, fun hst => ?_⟩
      have hst2 : ("一级预警 (预测风险)" : String) = st := congrArg Prod.fst this
      exact absurd (hst2.trans hst) (by decide)
    · rw [dl_early_cons a l, if_neg hv] at heq
      have := (Option.some.injEq _ _).mp heq
      refine ⟨fun hst => absurd (congrArg Prod.fst this).symm hst, fun _ => ?_⟩
      exact (congrArg (fun p => p.2.2) this).symm
  · rw [h1] at heq
    have := (Option.some.injEq _ _).mp heq
    refine ⟨fun _ => (congrArg (fun p => p.2.2) this).symm, fun hst => ?_⟩
    have hst2 : ("二级预警 (故障确认)" : String) = st := congrArg Prod.fst this
    exact absurd (hst2.trans hst) (by decide)
  · rw [h4] at heq
    have := (Option.some.injEq _ _).mp heq
    refine ⟨fun _ => (congrArg (fun p => p.2.2) this).symm, fun hst => ?_⟩
    have hst2 : ("干扰信号 (电机启动)" : String) = st := congrArg Prod.fst this
    exact absurd (hst2.trans hst) (by decide)
  · exact absurd hfalse (by simp)

/-- Witness for C3 at the nonempty window `[3, -3]`. -/
theorem dl_model_inference_policy_witness :
    dl_model_inference [3, -3] "severe_arc"
      = some ("二级预警 (故障确认)", 97.5, "severe_arc") :=
  (dl_model_inference_policy [3, -3] (by simp)).1

/-- C7 (counterexample): on the empty window the classifier has an error
path — `np.max(np.abs(data))` raises `ValueError` (modelled by `none`), so
classification does not return a triple for every window. -/
theorem dl_empty_window_raises :
    dl_model_inference [] "normal" = none ∧
    ¬ (dl_model_inference [] "normal").isSome = true := by
  exact ⟨rfl, by decide⟩

/-- C7 (amended to nonempty windows): for every nonempty telemetry window
and every scenario tag — including unknown tags, which fall into the final
`else` — `dl_model_inference` returns a status/confidence/faultType triple;
it has no other error path. -/
theorem dl_model_inference_total (data : List ℚ) (s : String)
    (hne : data ≠ []) : (dl_model_inference data s).isSome = true := by
  obtain ⟨a, l, rfl⟩ : ∃ a l, data = a :: l := by
    cases data with
    | nil => exact absurd rfl hne
    | cons a l => exact ⟨a, l, rfl⟩
  show (dl_model_inference (a :: l) s).isSome = true
  have hstep : dl_model_inference (a :: l) s =
      (if s = "severe_arc" then
        some ("二级预警 (故障确认)", 97.5, "severe_arc")
      else if s = "early_arc" then
        if (2/5 : ℚ) ^ 2 < npVar (centered (a :: l)) then
          some ("一级预警 (预测风险)", 85.0, "early_arc")
        else
          some ("运行正常 (安全)", 5.0, "normal")
      else if s = "motor_start" then
        some ("干扰信号 (电机启动)", 10.0, "motor_start")
      else
        some ("运行正常 (安全)", 2.0, "normal")) := rfl
  rw [hstep]
  split_ifs <;> rfl

/-- Witness for C7 at the nonempty window `[1]` with an unknown tag. -/
theorem dl_model_inference_total_witness :
    (dl_model_inference [1] "unexpected_tag").isSome = true :=
  dl_model_inference_total [1] "unexpected_tag" (by simp)

/-- C2 (counterexample): with the default `max_history = 6`, an
eight-message store produces an eight-part history window — more than
`W = 6` turns — because the code slices `messages[-(max_history*2):]`,
keeping the last 12 messages. -/
theorem history_window_exceeds_six :
    (create_conversation_history msgs8 6).length = 8 ∧
    ¬ (create_conversation_history msgs8 6).length ≤ 6 := by
  refine ⟨rfl, ?_⟩
  intro h
  have h8 : (create_conversation_history msgs8 6).length = 8 := rfl
  omega

/-- C2 (amended): with the default `max_history = 6` the assembled history
window holds at most `2·6 = 12` turns (six user/assistant exchanges); it is
a suffix of the rendered store, hence consists of the most recent turns in
chronological order; and appending to the store never removes earlier turns
from the store itself — only the windowed view drops them. -/
theorem history_window_bounded (msgs : List Msg) :
    (create_conversation_history msgs 6).length ≤ 2 * 6 ∧
    create_conversation_history msgs 6 <:+ msgs.map renderMsg ∧
    ∀ m : Msg, msgs <+: msgs ++ [m] := by
  refine ⟨?_, ?_, fun m => ⟨[m], rfl⟩⟩
  · simp only [create_conversation_history, pySliceLast, List.length_map]
    rw [if_neg (by norm_num)]
    rw [List.length_drop]
    omega
  · simp only [create_conversation_history, pySliceLast]
    rw [if_neg (by norm_num)]
    refine ⟨(msgs.take (msgs.length - 6 * 2)).map renderMsg, ?_⟩
    rw [← List.map_append, List.take_append_drop]

/-- Witness for C2 at the concrete eight-message store. -/
theorem history_window_bounded_witness :
    (create_conversation_history msgs8 6).length ≤ 2 * 6 ∧
    create_conversation_history msgs8 6 <:+ msgs8.map renderMsg :=
  ⟨(history_window_bounded msgs8).1, (history_window_bounded msgs8).2.1⟩

/-- C4: Gateway failure recovery.  If the gateway raises at the first model
call, or at the follow-up model call of the first dispatched tool call, the
orchestrator neither propagates nor retries: it makes no further gateway
invocations (counts 1 resp. 2) and returns the fixed-shape apology string
embedding the failure detail, which is non-empty. -/
theorem gateway_failure_recovery (gw : Gateway) (status : SystemStatus)
    (hist : List Msg) (q now : String) :
    (∀ e, gw.call1 (mkContents status hist q) = Except.error e →
      gemini_agent_response gw q status hist now = (errorReply e, 1) ∧
      (gemini_agent_response gw q status hist now).1 ≠ "") ∧
    (∀ resp c rest handler e,
      gw.call1 (mkContents status hist q) = Except.ok resp →
      resp.function_calls = c :: rest →
      AVAILABLE_TOOLS.lookup c.name = some handler →
      gw.call2 q c (handler c.args now) = Except.error e →
      gemini_agent_response gw q status hist now = (errorReply e, 2) ∧
      (gemini_agent_response gw q status hist now).1 ≠ "") ∧
    (∀ e n, agentCoreRun gw q status hist now = (Except.error e, n) →
      gemini_agent_response gw q status hist now = (errorReply e, n) ∧
      (gemini_agent_response gw q status hist now).1 ≠ "") := by
  refine ⟨?_, ?_, ?_⟩
  · intro e h
    have hr : gemini_agent_response gw q status hist now = (errorReply e, 1) := by
      unfold gemini_agent_response agentCoreRun
      rw [h]
    refine ⟨hr, ?_⟩
    rw [hr]
    exact errorReply_ne e
  · intro resp c rest handler e h1 h2 h3 h4
    have hr : gemini_agent_response gw q status hist now = (errorReply e, 2) := by
      unfold gemini_agent_response agentCoreRun
      rw [h1]
      simp only [h2]
      rw [if_neg (List.cons_ne_nil c rest)]
      simp only [runToolCalls]
      rw [h3]
      simp only [h4]
    refine ⟨hr, ?_⟩
    rw [hr]
    exact errorReply_ne e
  · intro e n h
    have hr : gemini_agent_response gw q status hist now = (errorReply e, n) := by
      unfold gemini_agent_response
      rw [h]
    refine ⟨hr, ?_⟩
    rw [hr]
    exact errorReply_ne e

/-- Witness for C4: a gateway raising at the first call, and one raising at
the follow-up call after requesting `check_system_stability`. -/
theorem gateway_failure_recovery_witness :
    gemini_agent_response gwRaise1 "q" status0 [] "now"
      = (errorReply "network down", 1) ∧
    gemini_agent_response gwRaise2 "q" status0 [] "now"
      = (errorReply "timeout", 2) := by
  constructor
  · exact ((gateway_failure_recovery gwRaise1 status0 [] "q" "now").1
      "network down" rfl).1
  · exact ((gateway_failure_recovery gwRaise2 status0 [] "q" "now").2.1
      ⟨[⟨"check_system_stability", args0⟩], "t"⟩
      ⟨"check_system_stability", args0⟩ []
      (fun _ _ => ToolResult.stability check_system_stability)
      "timeout" rfl rfl rfl rfl).1

/-- "Could not fulfill" sentinel recorded for an unregistered tool call
(line 250). -/
def cannotFulfill : String := "抱歉，我暂时无法处理这个请求。请尝试其他问题。"

/-- When every follow-up gateway call succeeds (answering `f c r`), the
tool-call loop over `cs ++ [clast]` yields the outcome determined by the
last call alone, and consumes one follow-up gateway invocation per
registered call. -/
theorem runToolCalls_last (gw : Gateway) (q now : String)
    (f : FunctionCall → ToolResult → String)
    (hok : ∀ c r, gw.call2 q c r = Except.ok (f c r)) :
    ∀ (cs : List FunctionCall) (clast : FunctionCall) (acc : String) (n : Nat),
      runToolCalls gw q now (cs ++ [clast]) acc n =
        (Except.ok (match AVAILABLE_TOOLS.lookup clast.name with
          | some handler => f clast (handler clast.args now)
          | none => cannotFulfill),
         n + (cs ++ [clast]).countP
               (fun c => (AVAILABLE_TOOLS.lookup c.name).isSome)) := by
  intro cs
  induction cs with
  | nil =>
    intro clast acc n
    cases hl : AVAILABLE_TOOLS.lookup clast.name with
    | some handler =>
      simp [runToolCalls, hl, hok, List.countP_cons]
    | none =>
      simp [runToolCalls, hl, cannotFulfill, List.countP_cons]
  | cons c cs ih =>
    intro clast acc n
    cases hl : AVAILABLE_TOOLS.lookup c.name with
    | some handler =>
      simp only [List.cons_append, runToolCalls, hl, hok, List.append_eq]
      rw [ih]
      simp [Prod.ext_iff, List.countP_cons, hl]
      omega
    | none =>
      simp only [List.cons_append, runToolCalls, hl, List.append_eq]
      rw [ih]
      simp [Prod.ext_iff, List.countP_cons, hl]

/-- C5: Multi-tool-call resolution.  When the first model call returns more
than one tool-call request and every follow-up gateway call succeeds
deterministically, the orchestrator processes all requests in order (one
follow-up invocation per registered call, counted) and the final answer is
determined by the last request alone — the handler result of the last call,
or the "could not fulfill" sentinel if it is unregistered.  Earlier calls'
results do not occur in the answer. -/
theorem multi_tool_last_result (gw : Gateway) (status : SystemStatus)
    (hist : List Msg) (q now txt : String) (pre : List FunctionCall)
    (clast : FunctionCall) (f : FunctionCall → ToolResult → String)
    (hcalls : gw.call1 (mkContents status hist q)
      = Except.ok ⟨pre ++ [clast], txt⟩)
    (_hmulti : 0 < pre.length)
    (hok : ∀ c r, gw.call2 q c r = Except.ok (f c r)) :
    gemini_agent_response gw q status hist now =
      ((match AVAILABLE_TOOLS.lookup clast.name with
        | some handler => f clast (handler clast.args now)
        | none => cannotFulfill),
       1 + (pre ++ [clast]).countP
             (fun c => (AVAILABLE_TOOLS.lookup c.name).isSome)) := by
  unfold gemini_agent_response agentCoreRun
  rw [hcalls]
  simp only []
  rw [if_neg (by simp)]
  rw [runToolCalls_last gw q now f hok pre clast "" 1]

/-- Witness for C5: two registered tool calls; the answer is the follow-up
reply for the second (`check_system_stability`) call, after three gateway
invocations in total. -/
theorem multi_tool_last_result_witness :
    gemini_agent_response gwTwoCalls "q" status0 [] "now"
      = ("ans:check_system_stability", 3) := by
  have h := multi_tool_last_result gwTwoCalls status0 [] "q" "now" "t"
    [⟨"generate_diagnostic_report", args0⟩] ⟨"check_system_stability", args0⟩
    answerOf rfl (by norm_num) (fun c r => rfl)
  rw [h]
  rfl

theorem lookup_gdr : AVAILABLE_TOOLS.lookup "generate_diagnostic_report"
    = some (fun a now =>
        ToolResult.report (generate_diagnostic_report a.fault_id a.severity
          a.fault_type now)) := rfl

theorem lookup_css : AVAILABLE_TOOLS.lookup "check_system_stability"
    = some (fun _ _ => ToolResult.stability check_system_stability) := rfl

theorem lookup_gmo : AVAILABLE_TOOLS.lookup "generate_maintenance_order"
    = some (fun a now =>
        ToolResult.order (generate_maintenance_order a.circuit_id
          a.fault_severity a.maintenance_type now)) := rfl

theorem lookup_other (name : String)
    (h1 : name ≠ "generate_diagnostic_report")
    (h2 : name ≠ "check_system_stability")
    (h3 : name ≠ "generate_maintenance_order") :
    AVAILABLE_TOOLS.lookup name = none := by
  simp only [AVAILABLE_TOOLS, List.lookup, beq_eq_false_iff_ne.mpr h1,
    beq_eq_false_iff_ne.mpr h2, beq_eq_false_iff_ne.mpr h3]

/-- C6: Fail-closed tool lookup.  A name outside the three registered tool
names looks up to `none`; dispatching such a call invokes no handler and no
gateway follow-up (count unchanged), raises nothing, and records the
"could not fulfill" sentinel as the outcome.  A registered name's handler
is invoked synchronously with the supplied arguments, its result fed to the
follow-up gateway call. -/
theorem tool_lookup_fail_closed (c : FunctionCall) (gw : Gateway)
    (q acc now : String) (n : Nat) :
    (AVAILABLE_TOOLS.lookup c.name = none ↔
      ¬ c.name ∈ ["generate_diagnostic_report", "check_system_stability",
                  "generate_maintenance_order"]) ∧
    (AVAILABLE_TOOLS.lookup c.name = none →
      runToolCalls gw q now [c] acc n = (Except.ok cannotFulfill, n)) ∧
    (∀ handler, AVAILABLE_TOOLS.lookup c.name = some handler →
      runToolCalls gw q now [c] acc n =
        (match gw.call2 q c (handler c.args now) with
         | Except.ok t => (Except.ok t, n + 1)
         | Except.error e => (Except.error e, n + 1))) := by
  refine ⟨?_, ?_, ?_⟩
  · constructor
    · intro h hmem
      simp only [List.mem_cons, List.not_mem_nil, or_false] at hmem
      rcases hmem with h1 | h1 | h1 <;> rw [h1] at h
      · rw [lookup_gdr] at h
        exact Option.noConfusion h
      · rw [lookup_css] at h
        exact Option.noConfusion h
      · rw [lookup_gmo] at h
        exact Option.noConfusion h
    · intro hnot
      refine lookup_other c.name ?_ ?_ ?_ <;> intro heq <;>
        exact hnot (by rw [heq]; simp)
  · intro h
    simp [runToolCalls, h, cannotFulfill]
  · intro handler h
    simp only [runToolCalls, h]

/-- Witness for C6: the unregistered name `"unknown_tool"` yields the
sentinel without consuming a gateway call; the registered
`"check_system_stability"` invokes its handler and the follow-up call. -/
theorem tool_lookup_fail_closed_witness :
    runToolCalls gwPlain "q" "now" [⟨"unknown_tool", args0⟩] "" 1
      = (Except.ok cannotFulfill, 1) ∧
    runToolCalls gwTwoCalls "q" "now" [⟨"check_system_stability", args0⟩] "" 1
      = (Except.ok (answerOf ⟨"check_system_stability", args0⟩
          (ToolResult.stability check_system_stability)), 2) := by
  constructor
  · exact (tool_lookup_fail_closed ⟨"unknown_tool", args0⟩ gwPlain
      "q" "" "now" 1).2.1 rfl
  · have h := (tool_lookup_fail_closed ⟨"check_system_stability", args0⟩
      gwTwoCalls "q" "" "now" 1).2.2
      (fun _ now => ToolResult.stability check_system_stability) rfl
    rw [h]
    rfl

/-- C8: Conversation-store side effect on success.  When the agent run
succeeds with answer `t`, `handleQuery` returns the store extended by
exactly two turns — the user's query then the assistant's answer, in that
order — leaving all earlier turns untouched. -/
theorem handleQuery_appends_two_turns (gw : Gateway) (status : SystemStatus)
    (store : List Msg) (prompt now t : String) (n : Nat)
    (h : agentCoreRun gw prompt status (store ++ [⟨"user", prompt⟩]) now
      = (Except.ok t, n)) :
    handleQuery gw status store prompt now
      = (store ++ [⟨"user", prompt⟩, ⟨"assistant", t⟩], t) := by
  unfold handleQuery gemini_agent_response
  dsimp only
  rw [h]
  simp

/-- Witness for C8: a plain-text gateway reply appends the user turn and
the assistant turn to an empty store. -/
theorem handleQuery_appends_two_turns_witness :
    handleQuery gwPlain status0 [] "当前系统状态如何" "now"
      = ([⟨"user", "当前系统状态如何"⟩, ⟨"assistant", "一切正常"⟩], "一切正常") := by
  have h := handleQuery_appends_two_turns gwPlain status0 []
    "当前系统状态如何" "now" "一切正常" 1 rfl
  simpa using h

/-- C9: Diagnostic-report contents.  The report id is `"RPT-" ++ faultId`;
the severity, fault type and timestamp are echoed; the root cause and
maintenance advice are the fixed strings; the risk level is high (`"高"`)
exactly when the severity contains the level-2 marker `"二级"`, else medium
(`"中"`); in particular a severity echoing the `WARNING_L2` status text
yields a high risk level. -/
theorem diagnostic_report_contents (fault_id severity fault_type timestamp : String) :
    (generate_diagnostic_report fault_id severity fault_type timestamp).report_id
      = "RPT-" ++ fault_id ∧
    (generate_diagnostic_report fault_id severity fault_type timestamp).fault_severity
      = severity ∧
    (generate_diagnostic_report fault_id severity fault_type timestamp).fault_type
      = fault_type ∧
    (generate_diagnostic_report fault_id severity fault_type timestamp).timestamp
      = timestamp ∧
    (generate_diagnostic_report fault_id severity fault_type timestamp).root_cause
      = "高振动区域电缆固定件老化松动" ∧
    (generate_diagnostic_report fault_id severity fault_type timestamp).maintenance_advice
      = "立即进行预防性检查，紧固连接件" ∧
    ((generate_diagnostic_report fault_id severity fault_type timestamp).risk_level
        = "高" ↔ strContains "二级" severity = true) ∧
    ((generate_diagnostic_report fault_id severity fault_type timestamp).risk_level
        ≠ "高" → (generate_diagnostic_report fault_id severity fault_type
          timestamp).risk_level = "中") ∧
    (generate_diagnostic_report fault_id "二级预警 (故障确认)" fault_type
        timestamp).risk_level = "高" := by
  refine ⟨rfl, rfl, rfl, rfl, rfl, rfl, ?_, ?_, ?_⟩
  · unfold generate_diagnostic_report
    cases h : strContains "二级" severity with
    | true => simp [h]
    | false =>
      simp only [h, if_neg Bool.false_ne_true, Bool.false_eq_true, iff_false]
      decide
  · unfold generate_diagnostic_report
    cases h : strContains "二级" severity with
    | true => simp [h]
    | false => simp [h]
  · unfold generate_diagnostic_report
    have h : strContains "二级" "二级预警 (故障确认)" = true := by decide
    simp [h]

/-- Witness for C9 at concrete inputs: a report for a `WARNING_L2` severity
has report id `"RPT-F-001"` and risk level `"高"`. -/
theorem diagnostic_report_contents_witness :
    (generate_diagnostic_report "F-001" "二级预警 (故障确认)" "severe_arc"
      "2025-01-01 00:00:00").report_id = "RPT-" ++ "F-001" ∧
    (generate_diagnostic_report "F-001" "二级预警 (故障确认)" "severe_arc"
      "2025-01-01 00:00:00").risk_level = "高" :=
  ⟨(diagnostic_report_contents "F-001" "二级预警 (故障确认)" "severe_arc"
      "2025-01-01 00:00:00").1,
   (diagnostic_report_contents "F-001" "二级预警 (故障确认)" "severe_arc"
      "2025-01-01 00:00:00").2.2.2.2.2.2.2.2⟩

/-- C10 (implicit): Conversation-store side effect on the error path.  When
the gateway raises (the agent core yields `Except.error e`), `handleQuery`
still appends exactly two turns — the user's query, then an assistant turn
carrying the apology string — in the same shape and order as the success
path. -/
theorem handleQuery_appends_two_turns_on_error (gw : Gateway)
    (status : SystemStatus) (store : List Msg) (prompt now e : String) (n : Nat)
    (h : agentCoreRun gw prompt status (store ++ [⟨"user", prompt⟩]) now
      = (Except.error e, n)) :
    handleQuery gw status store prompt now
      = (store ++ [⟨"user", prompt⟩, ⟨"assistant", errorReply e⟩],
         errorReply e) := by
  unfold handleQuery gemini_agent_response
  dsimp only
  rw [h]
  simp

/-- Witness for C10: a gateway raising `"network down"` at the first call
appends the user turn and the apology assistant turn. -/
theorem handleQuery_appends_two_turns_on_error_witness :
    handleQuery gwRaise1 status0 [] "生成诊断报告" "now"
      = ([⟨"user", "生成诊断报告"⟩,
          ⟨"assistant", errorReply "network down"⟩],
         errorReply "network down") := by
  have h := handleQuery_appends_two_turns_on_error gwRaise1 status0 []
    "生成诊断报告" "now" "network down" 1 rfl
  simpa using h
